import Mathlib

/-!
Verification of the LGE climate adapter
(custom_components/smartthinq_sensors/climate.py).

The file under verification is a thin adapter between a vendor air
conditioner API and a home-automation platform climate entity.  We embed
its data model and operations shallowly: Python dictionaries become
association lists with a get function mirroring dict.get, properties
become pure functions on the adapter record, and the async command
methods become functions returning the trace of vendor-device calls they
issue together with an optional raised error.
-/

/-- Platform HVAC mode constants, the string values of
homeassistant.components.climate.const. -/
def HVAC_MODE_OFF : String := "off"

def HVAC_MODE_AUTO : String := "auto"

def HVAC_MODE_HEAT : String := "heat"

def HVAC_MODE_DRY : String := "dry"

def HVAC_MODE_COOL : String := "cool"

def HVAC_MODE_FAN_ONLY : String := "fan_only"

def HVAC_MODE_HEAT_COOL : String := "heat_cool"

/-- Platform default minimum target temperature
(homeassistant DEFAULT_MIN_TEMP). -/
def DEFAULT_MIN_TEMP : ℚ := 7

/-- Platform default maximum target temperature
(homeassistant DEFAULT_MAX_TEMP). -/
def DEFAULT_MAX_TEMP : ℚ := 35

/-- Modelled from the spec: the ACMode enum lives in .wideq.ac, which is
not under src; climate.py references exactly the members AI, HEAT, DRY,
COOL, FAN, ACO, and by Python Enum semantics member .name is the member
identifier itself. -/
inductive ACMode where
  | AI
  | HEAT
  | DRY
  | COOL
  | FAN
  | ACO
deriving Repr, DecidableEq

/-- Modelled from the spec: Python Enum .name returns the member
identifier as a string. -/
def ACMode.name : ACMode → String
  | .AI => "AI"
  | .HEAT => "HEAT"
  | .DRY => "DRY"
  | .COOL => "COOL"
  | .FAN => "FAN"
  | .ACO => "ACO"

/-- Python dict.get on an association list: the value at the first
matching key, none when absent (keys here are unique, matching dict
semantics). -/
def dictGet : List (String × String) → String → Option String
  | [], _ => none
  | (k, v) :: rest, key => if key = k then some v else dictGet rest key

/-- HVAC_MODE_LOOKUP from climate.py: vendor mode name to platform HVAC
mode constant. -/
def HVAC_MODE_LOOKUP : List (String × String) :=
  [ (ACMode.AI.name, HVAC_MODE_AUTO),
    (ACMode.HEAT.name, HVAC_MODE_HEAT),
    (ACMode.DRY.name, HVAC_MODE_DRY),
    (ACMode.COOL.name, HVAC_MODE_COOL),
    (ACMode.FAN.name, HVAC_MODE_FAN_ONLY),
    (ACMode.ACO.name, HVAC_MODE_HEAT_COOL) ]

/-- HVAC_MODE_REVERSE_LOOKUP from climate.py: the dict comprehension
swapping every key and value of HVAC_MODE_LOOKUP. -/
def HVAC_MODE_REVERSE_LOOKUP : List (String × String) :=
  HVAC_MODE_LOOKUP.map (fun p => (p.2, p.1))

/-- The current state object of the vendor air conditioner, as read
through self api state in climate.py. -/
structure ACState where
  is_on : Bool
  operation_mode : Option String
  current_temp : ℚ
  target_temp : ℚ
  fan_speed : String
deriving Repr, DecidableEq

/-- The LGEDevice wrapper stored as field api of the adapter. -/
structure LGEDevice where
  name : String
  unique_id : String
  available : Bool
  state : ACState
deriving Repr, DecidableEq

/-- The vendor AirConditionerDevice stored as field device of the
adapter: its read-only capability surface used by the properties. -/
structure AirConditionerDevice where
  op_modes : List String
  fan_speeds : List String
  target_temperature_step : ℚ
  target_temperature_min : Option ℚ
  target_temperature_max : Option ℚ
deriving Repr, DecidableEq

/-- The LGEACClimate adapter: fields _api and _name come from the base
LGEClimate constructor, _device from the subclass constructor. -/
structure LGEACClimate where
  _api : LGEDevice
  _device : AirConditionerDevice
  _name : String
deriving Repr, DecidableEq

/-- One call issued to the vendor device by a command method. -/
inductive DeviceCall where
  | power (turn_on : Bool)
  | set_op_mode (mode : String)
  | set_target_temp (temp : ℚ)
  | set_fan_speed (speed : String)
deriving Repr, DecidableEq

namespace LGEACClimate

/-- Property available of the base class: forwards api available. -/
def available (c : LGEACClimate) : Bool :=
  c._api.available

/-- Property unique_id: the api unique id with suffix -AC. -/
def unique_id (c : LGEACClimate) : String :=
  c._api.unique_id ++ "-AC"

/-- Property name: the stored display name. -/
def name (c : LGEACClimate) : String :=
  c._name

/-- Property target_temperature_step: forwarded from the device. -/
def target_temperature_step (c : LGEACClimate) : ℚ :=
  c._device.target_temperature_step

/-- Property hvac_mode: HVAC_MODE_OFF when the device is off or reports
no operation mode, otherwise HVAC_MODE_LOOKUP.get(mode), which is none
when the mode is not a key. -/
def hvac_mode (c : LGEACClimate) : Option String :=
  match c._api.state.is_on, c._api.state.operation_mode with
  | false, _ => some HVAC_MODE_OFF
  | true, none => some HVAC_MODE_OFF
  | true, some mode => dictGet HVAC_MODE_LOOKUP mode

/-- Property hvac_modes: HVAC_MODE_OFF followed by the translation of
each supported vendor op mode that is a key of HVAC_MODE_LOOKUP. -/
def hvac_modes (c : LGEACClimate) : List (Option String) :=
  [some HVAC_MODE_OFF] ++
    (c._device.op_modes.filter
        (fun mode => (dictGet HVAC_MODE_LOOKUP mode).isSome)).map
      (fun mode => dictGet HVAC_MODE_LOOKUP mode)

/-- Property current_temperature: read through from the device state. -/
def current_temperature (c : LGEACClimate) : ℚ :=
  c._api.state.current_temp

/-- Property target_temperature: read through from the device state. -/
def target_temperature (c : LGEACClimate) : ℚ :=
  c._api.state.target_temp

/-- Property fan_mode: read through from the device state. -/
def fan_mode (c : LGEACClimate) : String :=
  c._api.state.fan_speed

/-- Property fan_modes: forwarded from the device. -/
def fan_modes (c : LGEACClimate) : List String :=
  c._device.fan_speeds

/-- Property min_temp: the device minimum when present, else the
platform default. -/
def min_temp (c : LGEACClimate) : ℚ :=
  match c._device.target_temperature_min with
  | some min_value => min_value
  | none => DEFAULT_MIN_TEMP

/-- Property max_temp: the device maximum when present, else the
platform default. -/
def max_temp (c : LGEACClimate) : ℚ :=
  match c._device.target_temperature_max with
  | some max_value => max_value
  | none => DEFAULT_MAX_TEMP

/-- Method async_set_hvac_mode: returns the trace of device calls issued,
paired with the ValueError message when one is raised.  OFF powers the
device down; an unknown mode raises before any device call; a known mode
powers up first exactly when the current hvac_mode is OFF, then sets the
vendor operation mode. -/
def async_set_hvac_mode (c : LGEACClimate) (hvac_mode_arg : String) :
    List DeviceCall × Option String :=
  if hvac_mode_arg = HVAC_MODE_OFF then
    ([DeviceCall.power false], none)
  else
    match dictGet HVAC_MODE_REVERSE_LOOKUP hvac_mode_arg with
    | none => ([], some ("Invalid hvac_mode [" ++ hvac_mode_arg ++ "]"))
    | some operation_mode =>
        ((if c.hvac_mode = some HVAC_MODE_OFF then [DeviceCall.power true]
          else []) ++ [DeviceCall.set_op_mode operation_mode],
         none)

/-- Method async_set_temperature: kwargs modelled as the optional
temperature keyword; issues exactly one set_target_temp with the keyword
value, defaulting to the current target temperature. -/
def async_set_temperature (c : LGEACClimate) (temperature : Option ℚ) :
    List DeviceCall :=
  [DeviceCall.set_target_temp (temperature.getD c.target_temperature)]

/-- Method async_set_fan_mode: issues exactly one set_fan_speed. -/
def async_set_fan_mode (_c : LGEACClimate) (fan_mode_arg : String) :
    List DeviceCall :=
  [DeviceCall.set_fan_speed fan_mode_arg]

end LGEACClimate

/-- Sample adapter used to instantiate hypotheses at concrete inputs. -/
def sampleState : ACState :=
  { is_on := true, operation_mode := some "COOL",
    current_temp := 21, target_temp := 18, fan_speed := "high" }

/-- Sample vendor device capabilities. -/
def sampleDevice : AirConditionerDevice :=
  { op_modes := ["COOL", "HEAT"], fan_speeds := ["low", "high"],
    target_temperature_step := 1,
    target_temperature_min := some 16, target_temperature_max := some 30 }

/-- Sample adapter instance. -/
def sampleClimate : LGEACClimate :=
  { _api := { name := "ac", unique_id := "uid", available := true,
              state := sampleState },
    _device := sampleDevice, _name := "ac" }

/-- A second sample adapter whose state differs in every read field. -/
def sampleClimate2 : LGEACClimate :=
  { _api := { name := "ac2", unique_id := "uid2", available := true,
              state := { is_on := true, operation_mode := some "HEAT",
                         current_temp := 25, target_temp := 24,
                         fan_speed := "low" } },
    _device := sampleDevice, _name := "ac2" }

/-- Property read of hvac_mode as a state computation: the source body
only reads self, never assigns a field. -/
def hvacModeRead : StateM LGEACClimate (Option String) := do
  let c ← get
  pure c.hvac_mode

/-- Property read of hvac_modes as a state computation. -/
def hvacModesRead : StateM LGEACClimate (List (Option String)) := do
  let c ← get
  pure c.hvac_modes

/-- Property read of current_temperature as a state computation. -/
def currentTemperatureRead : StateM LGEACClimate ℚ := do
  let c ← get
  pure c.current_temperature

/-- Property read of target_temperature as a state computation. -/
def targetTemperatureRead : StateM LGEACClimate ℚ := do
  let c ← get
  pure c.target_temperature

/-- Property read of fan_mode as a state computation. -/
def fanModeRead : StateM LGEACClimate String := do
  let c ← get
  pure c.fan_mode

/-- Property read of fan_modes as a state computation. -/
def fanModesRead : StateM LGEACClimate (List String) := do
  let c ← get
  pure c.fan_modes

/-- Property read of min_temp as a state computation. -/
def minTempRead : StateM LGEACClimate ℚ := do
  let c ← get
  pure c.min_temp

/-- Property read of max_temp as a state computation. -/
def maxTempRead : StateM LGEACClimate ℚ := do
  let c ← get
  pure c.max_temp

/-- Property read of available as a state computation. -/
def availableRead : StateM LGEACClimate Bool := do
  let c ← get
  pure c.available

/-- Property read of unique_id as a state computation. -/
def uniqueIdRead : StateM LGEACClimate String := do
  let c ← get
  pure c.unique_id

/-- Property read of name as a state computation. -/
def nameRead : StateM LGEACClimate String := do
  let c ← get
  pure c.name

/-- Every entry of the forward lookup is inverted by the reverse
lookup. -/
lemma lookup_then_reverse (k v : String)
    (h : dictGet HVAC_MODE_LOOKUP k = some v) :
    dictGet HVAC_MODE_REVERSE_LOOKUP v = some k := by
  simp only [HVAC_MODE_LOOKUP, ACMode.name, dictGet] at h
  split_ifs at h with h1 h2 h3 h4 h5 h6
  · injection h with hv; subst hv; subst h1; decide
  · injection h with hv; subst hv; subst h2; decide
  · injection h with hv; subst hv; subst h3; decide
  · injection h with hv; subst hv; subst h4; decide
  · injection h with hv; subst hv; subst h5; decide
  · injection h with hv; subst hv; subst h6; decide

/-- Every entry of the reverse lookup is inverted by the forward
lookup. -/
lemma reverse_then_lookup (v k : String)
    (h : dictGet HVAC_MODE_REVERSE_LOOKUP v = some k) :
    dictGet HVAC_MODE_LOOKUP k = some v := by
  simp only [HVAC_MODE_REVERSE_LOOKUP, HVAC_MODE_LOOKUP, ACMode.name,
    List.map_cons, List.map_nil, dictGet] at h
  split_ifs at h with h1 h2 h3 h4 h5 h6
  · injection h with hk; subst hk; subst h1; decide
  · injection h with hk; subst hk; subst h2; decide
  · injection h with hk; subst hk; subst h3; decide
  · injection h with hk; subst hk; subst h4; decide
  · injection h with hk; subst hk; subst h5; decide
  · injection h with hk; subst hk; subst h6; decide

/-- C1: HVAC_MODE_REVERSE_LOOKUP is the exact inverse of
HVAC_MODE_LOOKUP: looking a key up forward and the result backward
returns the key, and symmetrically, so the forward lookup is
injective. -/
theorem C1_reverse_lookup_exact_inverse :
    (∀ k v : String, dictGet HVAC_MODE_LOOKUP k = some v →
        dictGet HVAC_MODE_REVERSE_LOOKUP v = some k) ∧
    (∀ v k : String, dictGet HVAC_MODE_REVERSE_LOOKUP v = some k →
        dictGet HVAC_MODE_LOOKUP k = some v) :=
  ⟨lookup_then_reverse, reverse_then_lookup⟩

/-- Witness for C1 at the COOL entry. -/
theorem C1_witness :
    dictGet HVAC_MODE_LOOKUP "COOL" = some HVAC_MODE_COOL ∧
    dictGet HVAC_MODE_REVERSE_LOOKUP HVAC_MODE_COOL = some "COOL" :=
  ⟨by decide, C1_reverse_lookup_exact_inverse.1 "COOL" HVAC_MODE_COOL
    (by decide)⟩

/-- C2: the forward lookup has exactly six entries, sending AI, HEAT,
DRY, COOL, FAN, ACO to the platform constants auto, heat, dry, cool,
fan-only, heat-cool, and every key is one of those six names. -/
theorem C2_forward_lookup_six_entries :
    HVAC_MODE_LOOKUP.length = 6 ∧
    dictGet HVAC_MODE_LOOKUP "AI" = some HVAC_MODE_AUTO ∧
    dictGet HVAC_MODE_LOOKUP "HEAT" = some HVAC_MODE_HEAT ∧
    dictGet HVAC_MODE_LOOKUP "DRY" = some HVAC_MODE_DRY ∧
    dictGet HVAC_MODE_LOOKUP "COOL" = some HVAC_MODE_COOL ∧
    dictGet HVAC_MODE_LOOKUP "FAN" = some HVAC_MODE_FAN_ONLY ∧
    dictGet HVAC_MODE_LOOKUP "ACO" = some HVAC_MODE_HEAT_COOL ∧
    ∀ p ∈ HVAC_MODE_LOOKUP,
      p.1 ∈ ["AI", "HEAT", "DRY", "COOL", "FAN", "ACO"] := by
  decide

/-- Witness for C2 at the first entry. -/
theorem C2_witness :
    ("AI", HVAC_MODE_AUTO).1 ∈ ["AI", "HEAT", "DRY", "COOL", "FAN", "ACO"] :=
  C2_forward_lookup_six_entries.2.2.2.2.2.2.2 ("AI", HVAC_MODE_AUTO)
    (by decide)

/-- C3: mode translation round-trips: for a non-OFF platform mode in the
reverse lookup, async_set_hvac_mode issues set_op_mode with the vendor
name (after an optional power-on), and a device that is on and reports
that vendor name as operation mode yields the same platform mode back
from hvac_mode. -/
theorem C3_mode_round_trip :
    ∀ (c : LGEACClimate) (m w : String), m ≠ HVAC_MODE_OFF →
      dictGet HVAC_MODE_REVERSE_LOOKUP m = some w →
      ((∃ pre : List DeviceCall,
          (pre = [] ∨ pre = [DeviceCall.power true]) ∧
          c.async_set_hvac_mode m =
            (pre ++ [DeviceCall.set_op_mode w], none)) ∧
       ∀ c2 : LGEACClimate, c2._api.state.is_on = true →
          c2._api.state.operation_mode = some w →
          c2.hvac_mode = some m) := by
  intro c m w hne hrev
  constructor
  · refine ⟨if c.hvac_mode = some HVAC_MODE_OFF then [DeviceCall.power true]
        else [], ?_, ?_⟩
    · split_ifs <;> simp
    · simp [LGEACClimate.async_set_hvac_mode, hne, hrev]
  · intro c2 hon hmode
    have hfwd : dictGet HVAC_MODE_LOOKUP w = some m :=
      reverse_then_lookup m w hrev
    simp [LGEACClimate.hvac_mode, hon, hmode, hfwd]

/-- Witness for C3: the sample adapter, on and reporting COOL, shows
platform mode cool. -/
theorem C3_round_trip_witness :
    sampleClimate.hvac_mode = some HVAC_MODE_COOL :=
  (C3_mode_round_trip sampleClimate HVAC_MODE_COOL "COOL" (by decide)
    (by decide)).2 sampleClimate rfl rfl

/-- C4: hvac_mode is OFF whenever the device is off or reports no
operation mode, but an unknown reported mode while on yields none, not
OFF. -/
theorem C4_hvac_mode_off_vs_unknown :
    (∀ c : LGEACClimate,
        (c._api.state.is_on = false ∨ c._api.state.operation_mode = none) →
        c.hvac_mode = some HVAC_MODE_OFF) ∧
    (∀ (c : LGEACClimate) (m : String),
        c._api.state.is_on = true → c._api.state.operation_mode = some m →
        dictGet HVAC_MODE_LOOKUP m = none →
        c.hvac_mode = none) := by
  constructor
  · rintro c (h | h)
    · simp [LGEACClimate.hvac_mode, h]
    · simp only [LGEACClimate.hvac_mode, h]
      cases h2 : c._api.state.is_on <;> simp
  · intro c m hon hmode hnone
    simp [LGEACClimate.hvac_mode, hon, hmode, hnone]

/-- Witness for C4: the sample adapter with an unrecognised mode. -/
theorem C4_witness :
    ({ sampleClimate with
        _api := { sampleClimate._api with
          state := { sampleState with operation_mode := some "XFAST" } }
      } : LGEACClimate).hvac_mode = none :=
  C4_hvac_mode_off_vs_unknown.2 _ "XFAST" (by decide) rfl (by decide)

/-- C5: async_set_hvac_mode raises exactly on arguments that are neither
OFF nor a reverse-lookup key, and then issues no device call at all. -/
theorem C5_invalid_mode_raises_before_calls :
    ∀ (c : LGEACClimate) (m : String),
      ((c.async_set_hvac_mode m).2.isSome ↔
        (m ≠ HVAC_MODE_OFF ∧ dictGet HVAC_MODE_REVERSE_LOOKUP m = none)) ∧
      ((c.async_set_hvac_mode m).2.isSome →
        (c.async_set_hvac_mode m).1 = []) := by
  intro c m
  by_cases h : m = HVAC_MODE_OFF
  · simp [LGEACClimate.async_set_hvac_mode, h]
  · cases hrev : dictGet HVAC_MODE_REVERSE_LOOKUP m with
    | none => simp [LGEACClimate.async_set_hvac_mode, h, hrev]
    | some w => simp [LGEACClimate.async_set_hvac_mode, h, hrev]

/-- Witness for C5: an invalid mode string on the sample adapter raises
with no device call issued. -/
theorem C5_witness :
    (sampleClimate.async_set_hvac_mode "banana").1 = [] :=
  (C5_invalid_mode_raises_before_calls sampleClimate "banana").2 (by decide)

/-- C6: temperature, fan and mode readers are pure read-through
projections of the current device state, so adapters observing different
states return the different live values. -/
theorem C6_read_through_projections :
    (∀ c : LGEACClimate,
        c.current_temperature = c._api.state.current_temp ∧
        c.target_temperature = c._api.state.target_temp ∧
        c.fan_mode = c._api.state.fan_speed) ∧
    (∀ c1 c2 : LGEACClimate,
        c1._api.state.current_temp ≠ c2._api.state.current_temp →
        c1.current_temperature ≠ c2.current_temperature) ∧
    (∀ c1 c2 : LGEACClimate,
        c1._api.state.target_temp ≠ c2._api.state.target_temp →
        c1.target_temperature ≠ c2.target_temperature) ∧
    (∀ c1 c2 : LGEACClimate,
        c1._api.state.fan_speed ≠ c2._api.state.fan_speed →
        c1.fan_mode ≠ c2.fan_mode) :=
  ⟨fun _ => ⟨rfl, rfl, rfl⟩,
   fun _ _ h => h, fun _ _ h => h, fun _ _ h => h⟩

/-- Witness for C6: the two sample adapters read different current
temperatures. -/
theorem C6_witness :
    sampleClimate.current_temperature ≠ sampleClimate2.current_temperature :=
  C6_read_through_projections.2.1 sampleClimate sampleClimate2 (by decide)

/-- C7: setting OFF powers the device down and issues nothing else; a
supported non-OFF mode powers up first exactly when the current mode is
OFF, then sets the vendor operation mode. -/
theorem C7_power_sequencing :
    ∀ c : LGEACClimate,
      c.async_set_hvac_mode HVAC_MODE_OFF = ([DeviceCall.power false], none) ∧
      ∀ m w : String, m ≠ HVAC_MODE_OFF →
        dictGet HVAC_MODE_REVERSE_LOOKUP m = some w →
        ((c.hvac_mode = some HVAC_MODE_OFF →
            c.async_set_hvac_mode m =
              ([DeviceCall.power true, DeviceCall.set_op_mode w], none)) ∧
         (c.hvac_mode ≠ some HVAC_MODE_OFF →
            c.async_set_hvac_mode m =
              ([DeviceCall.set_op_mode w], none))) := by
  intro c
  constructor
  · simp [LGEACClimate.async_set_hvac_mode]
  · intro m w hne hrev
    constructor
    · intro hoff
      simp [LGEACClimate.async_set_hvac_mode, hne, hrev, hoff]
    · intro hnoff
      simp [LGEACClimate.async_set_hvac_mode, hne, hrev, hnoff]

/-- Witness for C7: the sample adapter is cooling, so setting heat issues
only set_op_mode. -/
theorem C7_witness :
    sampleClimate.async_set_hvac_mode HVAC_MODE_HEAT =
      ([DeviceCall.set_op_mode "HEAT"], none) :=
  (((C7_power_sequencing sampleClimate).2 HVAC_MODE_HEAT "HEAT"
      (by decide) (by decide)).2) (by decide)

/-- C8: async_set_temperature issues exactly one set_target_temp, with
the temperature keyword when present and the current device target
otherwise. -/
theorem C8_set_temperature_single_call :
    ∀ c : LGEACClimate,
      (∀ t : ℚ, c.async_set_temperature (some t) =
          [DeviceCall.set_target_temp t]) ∧
      c.async_set_temperature none =
        [DeviceCall.set_target_temp c._api.state.target_temp] :=
  fun _ => ⟨fun _ => rfl, rfl⟩

/-- C9: min_temp and max_temp take the device bound when present and the
platform default otherwise. -/
theorem C9_temp_bounds_defaults :
    ∀ c : LGEACClimate,
      (∀ v : ℚ, c._device.target_temperature_min = some v →
          c.min_temp = v) ∧
      (c._device.target_temperature_min = none →
          c.min_temp = DEFAULT_MIN_TEMP) ∧
      (∀ v : ℚ, c._device.target_temperature_max = some v →
          c.max_temp = v) ∧
      (c._device.target_temperature_max = none →
          c.max_temp = DEFAULT_MAX_TEMP) := by
  intro c
  refine ⟨fun v h => ?_, fun h => ?_, fun v h => ?_, fun h => ?_⟩ <;>
    simp [LGEACClimate.min_temp, LGEACClimate.max_temp, h]

/-- Witness for C9: the sample device reports a minimum of 16. -/
theorem C9_witness : sampleClimate.min_temp = 16 :=
  (C9_temp_bounds_defaults sampleClimate).1 16 rfl

/-- C10: every property read returns the pure property value and leaves
the adapter record, hence its fields _api, _device and _name,
unchanged. -/
theorem C10_property_reads_preserve_adapter :
    ∀ c : LGEACClimate,
      (hvacModeRead.run c) = (c.hvac_mode, c) ∧
      (hvacModesRead.run c) = (c.hvac_modes, c) ∧
      (currentTemperatureRead.run c) = (c.current_temperature, c) ∧
      (targetTemperatureRead.run c) = (c.target_temperature, c) ∧
      (fanModeRead.run c) = (c.fan_mode, c) ∧
      (fanModesRead.run c) = (c.fan_modes, c) ∧
      (minTempRead.run c) = (c.min_temp, c) ∧
      (maxTempRead.run c) = (c.max_temp, c) ∧
      (availableRead.run c) = (c.available, c) ∧
      (uniqueIdRead.run c) = (c.unique_id, c) ∧
      (nameRead.run c) = (c.name, c) :=
  fun _ => ⟨rfl, rfl, rfl, rfl, rfl, rfl, rfl, rfl, rfl, rfl, rfl⟩
